import Mathlib

/-!
Verification development for the earthworm Reddit data-collection client.

The definitions below are a shallow embedding of the request / retry /
normalization layer of `app/adapters/reddit/reddit_community.py` and
`app/adapters/reddit/reddit_official.py`.  Python dictionaries and JSON
payloads are modelled by the `JSON` inductive type; the network is modelled
by a script of per-attempt outcomes; `time.sleep` calls are collected into a
trace of rational durations; raised exceptions become `Except` errors.
-/

/-- JSON values as produced by `response.json()` (Python dicts are association
lists in insertion order, numbers are rationals). -/
inductive JSON where
  | null : JSON
  | bool : Bool → JSON
  | num : ℚ → JSON
  | str : String → JSON
  | arr : List JSON → JSON
  | obj : List (String × JSON) → JSON

/-- First-match association-list lookup, modelling Python dict key access
(keys in the dicts built by this code are unique). -/
def lookupField : List (String × JSON) → String → Option JSON
  | [], _ => none
  | (k, v) :: rest, key => if k = key then some v else lookupField rest key

/-- Models Python `d.get(k)` (returning `None` when the key is missing) on a
dict value; on non-dict values the code under scrutiny never calls `.get`. -/
def pyGet (j : JSON) (k : String) : Option JSON :=
  match j with
  | JSON.obj fs => lookupField fs k
  | _ => none

/-- Models Python `d.get(k, default)`. -/
def pyGetD (j : JSON) (k : String) (d : JSON) : JSON :=
  (pyGet j k).getD d

/-- Python truthiness of a JSON value. -/
def pyTruthy : JSON → Bool
  | JSON.null => false
  | JSON.bool b => b
  | JSON.num q => q ≠ 0
  | JSON.str s => s ≠ ""
  | JSON.arr xs => !xs.isEmpty
  | JSON.obj fs => !fs.isEmpty

/-- Models Python `k in j` for the shapes this code probes: key membership for
dicts, element membership for lists, substring test for strings. -/
def pyIn (k : String) (j : JSON) : Bool :=
  match j with
  | JSON.obj fs => (lookupField fs k).isSome
  | JSON.arr xs => xs.any (fun x => match x with | JSON.str s => s = k | _ => false)
  | JSON.str s => decide (k.data <:+: s.data)
  | _ => false

/-- Python `str.strip()` whitespace set (space, tab, LF, CR, VT, FF). -/
def pyIsSpace (c : Char) : Bool :=
  c = ' ' || c = '\t' || c = '\n' || c = '\r' || c = '\x0b' || c = '\x0c'

/-- Python `str.strip()` on a character list. -/
def pyStrip (l : List Char) : List Char :=
  ((l.dropWhile pyIsSpace).reverse.dropWhile pyIsSpace).reverse

/-- Left-to-right non-overlapping replacement, the semantics of Python
`str.replace`; `fuel` is the length of the text, consumed one unit per
emitted position. -/
def pyReplaceAux (pat rep : List Char) : Nat → List Char → List Char
  | _, [] => []
  | 0, s => s
  | fuel + 1, c :: rest =>
    if pat.isPrefixOf (c :: rest) && !pat.isEmpty then
      rep ++ pyReplaceAux pat rep fuel ((c :: rest).drop pat.length)
    else
      c :: pyReplaceAux pat rep fuel rest

/-- Python `text.replace(pat, rep)` on character lists. -/
def pyReplace (s pat rep : List Char) : List Char :=
  pyReplaceAux pat rep s.length s

/-- `RedditCommunity._clean_text_content` (reddit_community.py lines 190-203):
sentinel and falsy inputs become `""`; otherwise strip whitespace and decode
the four HTML entity escapes, in the source's order. -/
def clean_text_content (text : String) : String :=
  if text = "" || text = "[deleted]" || text = "[removed]" then ""
  else
    let t := pyStrip text.data
    let t := pyReplace t ("&amp;".data) ("&".data)
    let t := pyReplace t ("&lt;".data) ("<".data)
    let t := pyReplace t ("&gt;".data) (">".data)
    let t := pyReplace t ("&quot;".data) ("\"".data)
    String.mk t

/-- `_clean_text_content` as applied to a `.get(...)` result: falsy non-string
values (`None`, `""`, ...) yield `""`; strings are cleaned.  (Truthy
non-string values would raise `AttributeError` in Python and are outside the
modelled domain.) -/
def cleanTextJ : JSON → String
  | JSON.str s => clean_text_content s
  | _ => ""

/-- A text field of a canonical record: the cleaned string, as stored by the
extractors. -/
def cleanField (v : JSON) : JSON :=
  JSON.str (cleanTextJ v)

/-- `RedditCommunity._extract_clean_post_data` (lines 205-226): builds the
canonical post dict, cleaning `title` and `selftext`. -/
def extract_clean_post_data (p : JSON) : JSON :=
  JSON.obj [
    ("id", pyGetD p "id" (JSON.str "")),
    ("title", cleanField (pyGetD p "title" (JSON.str ""))),
    ("author", pyGetD p "author" (JSON.str "")),
    ("subreddit", pyGetD p "subreddit" (JSON.str "")),
    ("score", pyGetD p "score" (JSON.num 0)),
    ("upvote_ratio", pyGetD p "upvote_ratio" (JSON.num 0)),
    ("num_comments", pyGetD p "num_comments" (JSON.num 0)),
    ("created_utc", pyGetD p "created_utc" (JSON.num 0)),
    ("selftext", cleanField (pyGetD p "selftext" (JSON.str ""))),
    ("url", pyGetD p "url" (JSON.str "")),
    ("permalink", pyGetD p "permalink" (JSON.str "")),
    ("is_self", pyGetD p "is_self" (JSON.bool false)),
    ("over_18", pyGetD p "over_18" (JSON.bool false)),
    ("spoiler", pyGetD p "spoiler" (JSON.bool false)),
    ("locked", pyGetD p "locked" (JSON.bool false)),
    ("archived", pyGetD p "archived" (JSON.bool false)),
    ("distinguished", pyGetD p "distinguished" JSON.null),
    ("stickied", pyGetD p "stickied" (JSON.bool false))
  ]

/-- `RedditCommunity._extract_clean_comment_data` (lines 228-245): builds the
canonical comment dict, cleaning `body`. -/
def extract_clean_comment_data (c : JSON) : JSON :=
  JSON.obj [
    ("id", pyGetD c "id" (JSON.str "")),
    ("author", pyGetD c "author" (JSON.str "")),
    ("body", cleanField (pyGetD c "body" (JSON.str ""))),
    ("score", pyGetD c "score" (JSON.num 0)),
    ("created_utc", pyGetD c "created_utc" (JSON.num 0)),
    ("parent_id", pyGetD c "parent_id" (JSON.str "")),
    ("link_id", pyGetD c "link_id" (JSON.str "")),
    ("subreddit", pyGetD c "subreddit" (JSON.str "")),
    ("permalink", pyGetD c "permalink" (JSON.str "")),
    ("distinguished", pyGetD c "distinguished" JSON.null),
    ("stickied", pyGetD c "stickied" (JSON.bool false)),
    ("is_submitter", pyGetD c "is_submitter" (JSON.bool false)),
    ("controversiality", pyGetD c "controversiality" (JSON.num 0)),
    ("depth", pyGetD c "depth" (JSON.num 0))
  ]

/-- The deleted/removed/missing-body filter of `RedditCommunity.get_comments`
(line 340): `comment_data.get('body') not in ['[deleted]', '[removed]', None,
'']` is false exactly on these values. -/
def comment_body_excluded (cd : JSON) : Bool :=
  match pyGet cd "body" with
  | none => true
  | some JSON.null => true
  | some (JSON.str s) => s = "[deleted]" || s = "[removed]" || s = ""
  | some _ => false

/-- One child of the comment listing (lines 336-341): children without a
`data` key are skipped, excluded bodies are dropped, the rest are cleaned via
`_extract_clean_comment_data`. -/
def process_comment_child (child : JSON) : Option JSON :=
  match pyGet child "data" with
  | none => none
  | some cd =>
    if comment_body_excluded cd then none
    else some (extract_clean_comment_data cd)

/-- The normalization step of `RedditCommunity.get_comments` (lines 330-347)
applied to the `_make_request` payload: the second listing element's
`data.children` entries are filtered and cleaned; every non-matching shape
yields `[]`.  (Non-list `children` values, which Python would iterate
elementwise with undefined results, are outside the modelled domain and yield
`[]`.) -/
def community_get_comments_core (d : Option JSON) : List JSON :=
  match d with
  | none => []
  | some j =>
    if pyTruthy j then
      match j with
      | JSON.arr xs =>
        if 1 < xs.length then
          match pyGet (xs.getD 1 JSON.null) "data" with
          | none => []
          | some cdata =>
            match pyGet cdata "children" with
            | some (JSON.arr children) => children.filterMap process_comment_child
            | _ => []
        else []
      | _ => []
    else []

/-- A PRAW comment object as consumed by `RedditOfficial.get_comments`
(reddit_official.py lines 316-335): `body = none` models an object without a
`body` attribute, `author = none` models a deleted author. -/
structure PrawComment where
  body : Option String
  id : String
  author : Option String
  score : Int
  created_utc : ℚ
  parent_id : String
  link_id : String
  subreddit : String
  permalink : String
  distinguished : Option String
  stickied : Bool
  is_submitter : Bool
  controversiality : Int
  depth : Int
deriving DecidableEq

/-- The canonical comment dict built by `RedditOfficial.get_comments`
(lines 319-334); note the body is stored verbatim, with no cleaning. -/
structure OfficialComment where
  id : String
  author : String
  body : String
  score : Int
  created_utc : ℚ
  parent_id : String
  link_id : String
  subreddit : String
  permalink : String
  distinguished : Option String
  stickied : Bool
  is_submitter : Bool
  controversiality : Int
  depth : Int
deriving DecidableEq

/-- The comment-collection step of `RedditOfficial.get_comments` (lines
315-338): take at most `limit` comments, keep those having a `body` attribute
whose value is not exactly `'[deleted]'` or `'[removed]'`. -/
def official_get_comments (limit : Nat) (cs : List PrawComment) : List OfficialComment :=
  (cs.take limit).filterMap fun c =>
    match c.body with
    | none => none
    | some b =>
      if b = "[deleted]" || b = "[removed]" then none
      else some {
        id := c.id,
        author := c.author.getD "[deleted]",
        body := b,
        score := c.score,
        created_utc := c.created_utc,
        parent_id := c.parent_id,
        link_id := c.link_id,
        subreddit := c.subreddit,
        permalink := "https://reddit.com" ++ c.permalink,
        distinguished := c.distinguished,
        stickied := c.stickied,
        is_submitter := c.is_submitter,
        controversiality := c.controversiality,
        depth := c.depth }

/-- `RedditCommunity._validate_reddit_response` (lines 172-188): falsy data is
invalid; dicts are valid when they carry a `data` or `html_content` key;
lists are valid when non-empty. -/
def validate_reddit_response (d : JSON) : Bool :=
  if !pyTruthy d then false
  else
    match d with
    | JSON.obj fs =>
      if (lookupField fs "data").isSome then true
      else (lookupField fs "html_content").isSome
    | JSON.arr xs => 0 < xs.length
    | _ => false

/-- Outcome of `response.json()`: a parsed value, or `JSONDecodeError` (in
which case `_make_request` returns the raw text wrapped in an
`html_content` dict). -/
inductive Parse where
  | json : JSON → Parse
  | raw : String → Parse

/-- Outcome of one `self.session.get(...)` call inside `_make_request`:
either an HTTP response (status code, parsed `Retry-After` header if present,
payload) or a raised `requests.RequestException`. -/
inductive AttemptOutcome where
  | http : Nat → Option Nat → Parse → AttemptOutcome
  | exn : AttemptOutcome

/-- The adapter state consulted by `_make_request`: `maxRetries`
(`self.max_retries`), `requestDelay` (`self.request_delay`), `backoffFactor`
(`self.backoff_factor`), the `random.uniform(0, 1)` draw used in the backoff
formula at each attempt, and the value `_try_alternate_request` would return
(`none` models its failure paths). -/
structure MRConfig where
  maxRetries : Nat
  requestDelay : ℚ
  backoffFactor : ℚ
  unif : Nat → ℚ
  alt : Option JSON

/-- Result of a `_make_request` run: the returned value (`Except.error ()`
models a raised `APIError`), how many HTTP calls were made, and the trace of
`time.sleep` durations in order. -/
structure MRResult where
  result : Except Unit (Option JSON)
  calls : Nat
  sleeps : List ℚ

/-- The attempt loop of `RedditCommunity._make_request` (lines 65-130); the
scripted `resps` gives each attempt's outcome, `fuel` counts the remaining
iterations of `range(self.max_retries + 1)` and `attempt` the loop index.
Falling off the loop (all attempts consumed by `continue`) returns `None`
(line 130). -/
def mrLoop (cfg : MRConfig) (resps : Nat → AttemptOutcome) :
    Nat → Nat → Nat → List ℚ → MRResult
  | 0, _, calls, sleeps => ⟨Except.ok none, calls, sleeps⟩
  | fuel + 1, attempt, calls, sleeps =>
    -- time.sleep(self.request_delay); self.request_count += 1; session.get(...)
    let sleeps := sleeps ++ [cfg.requestDelay]
    let calls := calls + 1
    match resps attempt with
    | AttemptOutcome.exn =>
      -- except requests.RequestException (lines 120-128)
      if attempt < cfg.maxRetries then
        mrLoop cfg resps fuel (attempt + 1) calls
          (sleeps ++ [cfg.backoffFactor ^ attempt + cfg.unif attempt])
      else ⟨Except.error (), calls, sleeps⟩
    | AttemptOutcome.http code retryAfter p =>
      if code = 429 then
        -- sleep Retry-After (default 60) and continue (lines 79-83)
        mrLoop cfg resps fuel (attempt + 1) calls (sleeps ++ [((retryAfter.getD 60 : Nat) : ℚ)])
      else if code = 404 then
        -- terminal not-found (lines 86-88)
        ⟨Except.ok none, calls, sleeps⟩
      else if code = 403 then
        -- one-shot alternate request on the first attempt (lines 89-96);
        -- _try_alternate_request sleeps request_delay * 2 and performs one
        -- more HTTP call (lines 132-170)
        if attempt = 0 then
          let sleeps := sleeps ++ [cfg.requestDelay * 2]
          let calls := calls + 1
          match cfg.alt with
          | some j =>
            if pyTruthy j then ⟨Except.ok (some j), calls, sleeps⟩
            else ⟨Except.ok none, calls, sleeps⟩
          | none => ⟨Except.ok none, calls, sleeps⟩
        else ⟨Except.ok none, calls, sleeps⟩
      else if 500 ≤ code ∧ attempt < cfg.maxRetries then
        -- server error with retry budget left (lines 97-103)
        mrLoop cfg resps fuel (attempt + 1) calls
          (sleeps ++ [cfg.backoffFactor ^ attempt + cfg.unif attempt])
      else if 400 ≤ code then
        -- response.raise_for_status() raises HTTPError, caught as
        -- RequestException (lines 105, 120-128); this also covers a 5xx on
        -- the final attempt
        if attempt < cfg.maxRetries then
          mrLoop cfg resps fuel (attempt + 1) calls
            (sleeps ++ [cfg.backoffFactor ^ attempt + cfg.unif attempt])
        else ⟨Except.error (), calls, sleeps⟩
      else
        -- success: parse and validate (lines 107-118)
        match p with
        | Parse.json j =>
          if validate_reddit_response j then ⟨Except.ok (some j), calls, sleeps⟩
          else ⟨Except.ok none, calls, sleeps⟩
        | Parse.raw text =>
          ⟨Except.ok (some (JSON.obj [("html_content", JSON.str text),
            ("status_code", JSON.num code)])), calls, sleeps⟩

/-- `RedditCommunity._make_request`: run the attempt loop for
`max_retries + 1` attempts. -/
def make_request (cfg : MRConfig) (resps : Nat → AttemptOutcome) : MRResult :=
  mrLoop cfg resps (cfg.maxRetries + 1) 0 0 []

/-- Every attempt outcome the spec calls a transient transport failure: a
5xx response or a raised transport exception. -/
def attemptFailsB : AttemptOutcome → Bool
  | AttemptOutcome.exn => true
  | AttemptOutcome.http code _ _ => 500 ≤ code

/-- Outcome of one call into the wrapped vendor function inside the
`handle_rate_limit` decorator (reddit_official.py lines 18-61). -/
inductive VendorOutcome where
  | ok : JSON → VendorOutcome
  /-- `praw.exceptions.RedditAPIException` carrying a `RATELIMIT` /
  `TOO_MANY_REQUESTS` item. -/
  | prawRL : VendorOutcome
  /-- `praw.exceptions.RedditAPIException` with no rate-limit item. -/
  | prawOther : VendorOutcome
  /-- Any other exception whose text contains `429`, `too many requests`
  or `rate limit` (suspected bot detection). -/
  | generic429 : VendorOutcome
  /-- Any other exception (re-raised unchanged). -/
  | genericOther : VendorOutcome

/-- Result of a `handle_rate_limit`-wrapped call. -/
inductive HrlOutcome where
  | ok : JSON → HrlOutcome
  | rateLimitError : HrlOutcome
  | apiError : HrlOutcome
  | reraised : HrlOutcome

/-- The retry loop of the `handle_rate_limit` decorator (lines 22-58).
`jitRL` is the `random.uniform(0.5, 1.5)` draw for vendor rate-limit errors,
`jitBot` the `random.uniform(1.0, 2.0)` draw for suspected bot detection;
the sleep trace is returned alongside the outcome. -/
def hrlLoop (f : Nat → VendorOutcome) (maxRetries : Nat) (baseDelay : ℚ)
    (jitRL jitBot : Nat → ℚ) : Nat → Nat → List ℚ → HrlOutcome × List ℚ
  | 0, _, sleeps => (HrlOutcome.ok JSON.null, sleeps)
  | fuel + 1, attempt, sleeps =>
    match f attempt with
    | VendorOutcome.ok v => (HrlOutcome.ok v, sleeps)
    | VendorOutcome.prawRL =>
      if attempt = maxRetries then (HrlOutcome.rateLimitError, sleeps)
      else
        hrlLoop f maxRetries baseDelay jitRL jitBot fuel (attempt + 1)
          (sleeps ++ [baseDelay * 2 ^ attempt * jitRL attempt])
    | VendorOutcome.prawOther => (HrlOutcome.apiError, sleeps)
    | VendorOutcome.generic429 =>
      if attempt = maxRetries then (HrlOutcome.rateLimitError, sleeps)
      else
        hrlLoop f maxRetries baseDelay jitRL jitBot fuel (attempt + 1)
          (sleeps ++ [baseDelay * 3 ^ attempt * jitBot attempt])
    | VendorOutcome.genericOther => (HrlOutcome.reraised, sleeps)

/-- `handle_rate_limit(max_retries, base_delay)` applied to a scripted vendor
function: up to `max_retries + 1` attempts. -/
def handle_rate_limit (f : Nat → VendorOutcome) (maxRetries : Nat)
    (baseDelay : ℚ) (jitRL jitBot : Nat → ℚ) : HrlOutcome × List ℚ :=
  hrlLoop f maxRetries baseDelay jitRL jitBot (maxRetries + 1) 0 []

/-- The mutable anti-bot configuration of `RedditOfficial` read and written by
`_enforce_rate_limit`, `enable_stealth_mode` and `disable_stealth_mode`. -/
structure OfficialConfig where
  use_random_delays : Bool
  burst_protection : Bool
  request_delay : ℚ
  max_requests_per_minute : Nat
  min_jitter : ℚ
  max_jitter : ℚ
deriving DecidableEq

/-- The `RedditOfficial.__init__` defaults under a default environment
(lines 83-91): request_delay 0.5, 30 requests/minute, jitter 0.3-1.2. -/
def defaultOfficialConfig : OfficialConfig :=
  ⟨true, true, 1/2, 30, 3/10, 6/5⟩

/-- `RedditOfficial.enable_stealth_mode` (lines 650-658). -/
def enable_stealth_mode (s : OfficialConfig) : OfficialConfig :=
  { s with
    use_random_delays := true,
    burst_protection := true,
    request_delay := max s.request_delay 1,
    max_requests_per_minute := min s.max_requests_per_minute 20,
    min_jitter := 1/2,
    max_jitter := 2 }

/-- `RedditOfficial.disable_stealth_mode` (lines 660-668). -/
def disable_stealth_mode (s : OfficialConfig) : OfficialConfig :=
  { s with
    use_random_delays := false,
    burst_protection := false,
    request_delay := 1/10,
    max_requests_per_minute := 60,
    min_jitter := 3/10,
    max_jitter := 6/5 }

/-- The inter-request delay computed by `_enforce_rate_limit` (lines 113-121):
`request_delay * jitter` when random delays are on, else `request_delay`;
`jitter` is drawn from `uniform(min_jitter, max_jitter)`. -/
def delay_with_jitter (s : OfficialConfig) (jitter : ℚ) : ℚ :=
  if s.use_random_delays then s.request_delay * jitter else s.request_delay

/-- The pruning of `_request_times` (line 103): keep timestamps strictly
younger than 60 seconds. -/
def prune_request_times (times : List ℚ) (now : ℚ) : List ℚ :=
  times.filter (fun t => now - t < 60)

/-- The burst-protection block of `_enforce_rate_limit` (lines 101-110):
prune the history; when the pruned history has reached
`max_requests_per_minute` entries, sleep `60 - (now - oldest) + buf` seconds
(`buf` is the `random.uniform(1, 5)` draw) and clear the history.  Returns
the history after the block and the sleep, if any. -/
def burst_step (bp : Bool) (k : Nat) (times : List ℚ) (now buf : ℚ) :
    List ℚ × Option ℚ :=
  if bp then
    let pruned := prune_request_times times now
    if k ≤ pruned.length then
      ([], some (60 - (now - pruned.headD 0) + buf))
    else (pruned, none)
  else (times, none)

/-- `RedditOfficial._enforce_rate_limit` (lines 97-133): burst protection,
then the jittered minimum inter-request delay, then bookkeeping.  `now` is
the `time.time()` captured on entry, `now2` the one captured after the
sleeps (line 128).  Returns the new `_request_times`, the new
`_last_request_time` and the sleep trace. -/
def enforce_rate_limit (s : OfficialConfig) (times : List ℚ)
    (lastReq now now2 buf jitter : ℚ) : List ℚ × ℚ × List ℚ :=
  let afterBurst := burst_step s.burst_protection s.max_requests_per_minute times now buf
  let dwj := delay_with_jitter s jitter
  let timeSinceLast := now - lastReq
  let delaySleep : Option ℚ :=
    if timeSinceLast < dwj then some (dwj - timeSinceLast) else none
  let newTimes := if s.burst_protection then afterBurst.1 ++ [now2] else afterBurst.1
  (newTimes, now2, afterBurst.2.toList ++ delaySleep.toList)

/-- The `limit` query parameter sent by `RedditCommunity.get_subreddit_posts`
(line 284): clamped to 100. -/
def get_subreddit_posts_sent_limit (limit : Int) : Int := min limit 100

/-- The `limit` query parameter sent by `RedditCommunity.get_comments`
(line 327): passed through unchanged. -/
def get_comments_sent_limit (limit : Int) : Int := limit

/-- The `limit` query parameter sent by `RedditCommunity.search_posts`
(lines 360-374): passed through unchanged. -/
def search_posts_sent_limit (limit : Int) : Int := limit

/-- The `limit` query parameter sent by `RedditCommunity.get_user_posts`
(lines 388-391): passed through unchanged. -/
def get_user_posts_sent_limit (limit : Int) : Int := limit

/-- The `limit` query parameter sent by `RedditCommunity.get_user_comments`
(lines 405-408): passed through unchanged. -/
def get_user_comments_sent_limit (limit : Int) : Int := limit

/-- `RedditCommunity.get_user_info` (lines 266-278) applied to the
`_make_request` outcome: a raised `APIError` is caught and `None` returned;
otherwise return `data['data']` when the payload is truthy and carries a
`data` key. -/
def run_get_user_info (mk : Except Unit (Option JSON)) : Option JSON :=
  match mk with
  | Except.error _ => none
  | Except.ok none => none
  | Except.ok (some j) =>
    if pyTruthy j && pyIn "data" j then pyGet j "data" else none

/-- `RedditCommunity.get_subreddit_posts` (lines 280-291) applied to the
`_make_request` outcome: `APIError` becomes `None`, otherwise the payload is
returned as-is. -/
def run_get_subreddit_posts (mk : Except Unit (Option JSON)) : Option JSON :=
  match mk with
  | Except.error _ => none
  | Except.ok d => d

/-- `RedditCommunity.get_subreddit_info` (lines 293-305) applied to the
`_make_request` outcome. -/
def run_get_subreddit_info (mk : Except Unit (Option JSON)) : Option JSON :=
  match mk with
  | Except.error _ => none
  | Except.ok none => none
  | Except.ok (some j) =>
    if pyTruthy j && pyIn "data" j then pyGet j "data" else none

/-- `RedditCommunity.get_post_details` (lines 307-321) applied to the
`_make_request` outcome: the first element of a non-empty list payload. -/
def run_get_post_details (mk : Except Unit (Option JSON)) : Option JSON :=
  match mk with
  | Except.error _ => none
  | Except.ok (some (JSON.arr (x :: _))) => some x
  | Except.ok _ => none

/-- `RedditCommunity.get_comments` (lines 323-351) applied to the
`_make_request` outcome: `APIError` becomes `None`, otherwise the normalized
comment collection. -/
def run_get_comments (mk : Except Unit (Option JSON)) : Option (List JSON) :=
  match mk with
  | Except.error _ => none
  | Except.ok d => some (community_get_comments_core d)

/-- `RedditCommunity.search_posts` (lines 353-381) applied to the
`_make_request` outcome. -/
def run_search_posts (mk : Except Unit (Option JSON)) : Option JSON :=
  match mk with
  | Except.error _ => none
  | Except.ok d => d

/-- `RedditCommunity.get_user_posts` (lines 383-398) applied to the
`_make_request` outcome. -/
def run_get_user_posts (mk : Except Unit (Option JSON)) : Option JSON :=
  match mk with
  | Except.error _ => none
  | Except.ok d => d

/-- `RedditCommunity.get_user_comments` (lines 400-415) applied to the
`_make_request` outcome. -/
def run_get_user_comments (mk : Except Unit (Option JSON)) : Option JSON :=
  match mk with
  | Except.error _ => none
  | Except.ok d => d

/-- A raw comment child of a Reddit listing with a given id and body. -/
def exampleChild (i b : String) : JSON :=
  JSON.obj [("data", JSON.obj [("id", JSON.str i), ("body", JSON.str b)])]

/-- The spec's normalizer-filtering example: a raw `/comments/{id}.json`
payload whose comment listing carries bodies `"[deleted]"`, `"[removed]"`,
`""` and `"hello"`. -/
def exampleCommentListing : JSON :=
  JSON.arr [
    JSON.obj [("data", JSON.obj [])],
    JSON.obj [("data", JSON.obj [("children", JSON.arr [
      exampleChild "c1" "[deleted]",
      exampleChild "c2" "[removed]",
      exampleChild "c3" "",
      exampleChild "c4" "hello"])])]]

/-- A raw comment listing whose only body is `" [deleted] "`: not literally a
sentinel, but normalizing to one. -/
def sentinelCommentListing : JSON :=
  JSON.arr [
    JSON.obj [("data", JSON.obj [])],
    JSON.obj [("data", JSON.obj [("children", JSON.arr [
      exampleChild "c9" " [deleted] "])])]]

/-- A PRAW comment with the given id and body and fixed remaining fields. -/
def mkPrawComment (i : String) (b : Option String) : PrawComment :=
  ⟨b, i, some "alice", 1, 0, "t3_p", "t3_p", "python", "/r/python/x", none,
    false, false, 0, 1⟩

/-- The spec's four-body example as PRAW comment objects. -/
def examplePrawComments : List PrawComment :=
  [mkPrawComment "c1" (some "[deleted]"),
   mkPrawComment "c2" (some "[removed]"),
   mkPrawComment "c3" (some ""),
   mkPrawComment "c4" (some "hello")]

/-- Adapter state for the rate-limit counterexample: `max_retries = 6`,
`request_delay = 0`, so the sleep trace shows only the 429 sleeps. -/
def cfg429 : MRConfig := ⟨6, 0, 2, fun _ => 0, none⟩

/-- A server that answers 429 without a `Retry-After` header forever. -/
def resps429 : Nat → AttemptOutcome :=
  fun _ => AttemptOutcome.http 429 none (Parse.raw "")

/-- Adapter state for the malformed-payload counterexample: a full retry
budget of 3. -/
def cfgC6 : MRConfig := ⟨3, 0, 2, fun _ => 0, none⟩

/-- A payload that parses as JSON but fails
`_validate_reddit_response`: a dict with neither `data` nor `html_content`. -/
def invalidShapedPayload : JSON := JSON.obj [("foo", JSON.str "bar")]

/-- A server that always answers 200 with the invalid-shaped payload. -/
def respsC6 : Nat → AttemptOutcome :=
  fun _ => AttemptOutcome.http 200 none (Parse.json invalidShapedPayload)

/-- A raw post dict whose title is a double-escaped HTML entity. -/
def titleEntityPost : JSON := JSON.obj [("title", JSON.str "&amp;amp;")]

/-- The raw dict of the surviving `"hello"` comment of the four-body
example. -/
def helloCommentDict : JSON :=
  JSON.obj [("id", JSON.str "c4"), ("body", JSON.str "hello")]

/-- The canonical record the authenticated backend produces for the
`"hello"` comment of `examplePrawComments`. -/
def helloOfficialComment : OfficialComment :=
  ⟨"c4", "alice", "hello", 1, 0, "t3_p", "t3_p", "python",
    "https://reddit.com/r/python/x", none, false, false, 0, 1⟩

/-- A payload passing `_validate_reddit_response` (a dict with a `data`
key). -/
def goodListingPayload : JSON := JSON.obj [("data", JSON.null)]

/-- Adapter state for the 429-then-success scenario. -/
def cfgC4w : MRConfig := ⟨1, 0, 2, fun _ => 0, none⟩

/-- A server answering 429 with `Retry-After: 7`, then 200 with a valid
payload. -/
def respsC4w : Nat → AttemptOutcome := fun a =>
  if a = 0 then AttemptOutcome.http 429 (some 7) (Parse.raw "")
  else AttemptOutcome.http 200 none (Parse.json goodListingPayload)

/-- Helper: when every scripted attempt is a 5xx response or a transport
exception, the attempt loop consumes all its fuel, makes one HTTP call per
iteration, and ends in a raised `APIError`. -/
lemma mrLoop_all_fail (cfg : MRConfig) (resps : Nat → AttemptOutcome)
    (h : ∀ a, attemptFailsB (resps a) = true) :
    ∀ fuel attempt calls sleeps, fuel + attempt = cfg.maxRetries + 1 → 1 ≤ fuel →
      (mrLoop cfg resps fuel attempt calls sleeps).result = Except.error () ∧
      (mrLoop cfg resps fuel attempt calls sleeps).calls = calls + fuel
  | 0, _, _, _ => fun _ hf => absurd hf (by omega)
  | fuel + 1, attempt, calls, sleeps => by
    intro hinv _
    have hfail := h attempt
    cases hr : resps attempt with
    | exn =>
      by_cases hlt : attempt < cfg.maxRetries
      · have hrec := mrLoop_all_fail cfg resps h fuel (attempt + 1) (calls + 1)
          ((sleeps ++ [cfg.requestDelay]) ++ [cfg.backoffFactor ^ attempt + cfg.unif attempt])
          (by omega) (by omega)
        constructor
        · simpa only [mrLoop, hr, if_pos hlt] using hrec.1
        · simp only [mrLoop, hr, if_pos hlt]
          rw [hrec.2]
          omega
      · constructor
        · simp [mrLoop, hr, hlt]
        · simp only [mrLoop, hr, if_neg hlt]
          omega
    | http code ra p =>
      have h5 : 500 ≤ code := by
        rw [hr] at hfail
        simpa [attemptFailsB] using hfail
      have hc429 : ¬(code = 429) := by omega
      have hc404 : ¬(code = 404) := by omega
      have hc403 : ¬(code = 403) := by omega
      by_cases hlt : attempt < cfg.maxRetries
      · have hrec := mrLoop_all_fail cfg resps h fuel (attempt + 1) (calls + 1)
          ((sleeps ++ [cfg.requestDelay]) ++ [cfg.backoffFactor ^ attempt + cfg.unif attempt])
          (by omega) (by omega)
        constructor
        · simpa only [mrLoop, hr, if_neg hc429, if_neg hc404, if_neg hc403,
            if_pos (And.intro h5 hlt)] using hrec.1
        · simp only [mrLoop, hr, if_neg hc429, if_neg hc404, if_neg hc403,
            if_pos (And.intro h5 hlt)]
          rw [hrec.2]
          omega
      · have hno5 : ¬(500 ≤ code ∧ attempt < cfg.maxRetries) := fun hh => hlt hh.2
        have h4 : 400 ≤ code := by omega
        constructor
        · simp [mrLoop, hr, hc429, hc404, hc403, hno5, h4, hlt]
        · simp only [mrLoop, hr, if_neg hc429, if_neg hc404, if_neg hc403,
            if_neg hno5, if_pos h4, if_neg hlt]
          omega

/-- C1: with `maxRetries = N`, if every attempt fails with an HTTP status
≥ 500 or a raised transport exception, `_make_request` performs exactly
`N + 1` HTTP calls and then raises `APIError` instead of returning. -/
theorem c1_all_failures_make_n_plus_1_calls_then_raise
    (cfg : MRConfig) (resps : Nat → AttemptOutcome)
    (h : ∀ a, attemptFailsB (resps a) = true) :
    (make_request cfg resps).result = Except.error () ∧
    (make_request cfg resps).calls = cfg.maxRetries + 1 := by
  have := mrLoop_all_fail cfg resps h (cfg.maxRetries + 1) 0 0 [] (by omega) (by omega)
  simpa [make_request] using this

/-- Witness for C1: three retries, every attempt a transport exception. -/
theorem c1_witness :
    (make_request ⟨3, 1, 2, fun _ => 0, none⟩ (fun _ => AttemptOutcome.exn)).result
        = Except.error () ∧
    (make_request ⟨3, 1, 2, fun _ => 0, none⟩ (fun _ => AttemptOutcome.exn)).calls
        = 3 + 1 :=
  c1_all_failures_make_n_plus_1_calls_then_raise
    ⟨3, 1, 2, fun _ => 0, none⟩ (fun _ => AttemptOutcome.exn) (fun _ => rfl)

/-- C2: a 404 on the first attempt makes `_make_request` return `None`
after exactly one HTTP call, with no retries and no exception. -/
theorem c2_404_returns_none_after_one_call
    (cfg : MRConfig) (resps : Nat → AttemptOutcome) (ra : Option Nat) (p : Parse)
    (h : resps 0 = AttemptOutcome.http 404 ra p) :
    (make_request cfg resps).result = Except.ok none ∧
    (make_request cfg resps).calls = 1 := by
  constructor <;> simp [make_request, mrLoop, h]

/-- Witness for C2: a permanent-404 server. -/
theorem c2_witness :
    (make_request ⟨3, 1, 2, fun _ => 0, none⟩
        (fun _ => AttemptOutcome.http 404 none (Parse.raw ""))).result
      = Except.ok none ∧
    (make_request ⟨3, 1, 2, fun _ => 0, none⟩
        (fun _ => AttemptOutcome.http 404 none (Parse.raw ""))).calls = 1 :=
  c2_404_returns_none_after_one_call ⟨3, 1, 2, fun _ => 0, none⟩
    (fun _ => AttemptOutcome.http 404 none (Parse.raw "")) none (Parse.raw "") rfl

/-- C6 counterexample: with a full retry budget (`max_retries = 3`, so the
budget is not exhausted after one attempt), a 200 response whose payload
fails `_validate_reddit_response` makes `_make_request` return `None`
terminally after a single HTTP call — the invalid payload is NOT treated as
a retryable failed attempt, contradicting the claim that no terminal result
is returned on the first invalid payload while budget remains. -/
theorem c6_counterexample :
    validate_reddit_response invalidShapedPayload = false ∧
    1 < cfgC6.maxRetries + 1 ∧
    (make_request cfgC6 respsC6).result = Except.ok none ∧
    (make_request cfgC6 respsC6).calls = 1 :=
  ⟨rfl, by norm_num [cfgC6], rfl, rfl⟩

/-- C6 amended: a successful (2xx) response whose JSON payload fails shape
validation immediately makes `_make_request` return `None` after that single
attempt — no retry is performed and no exception is raised, regardless of
the remaining retry budget. -/
theorem c6_invalid_payload_immediately_returns_none
    (cfg : MRConfig) (resps : Nat → AttemptOutcome) (ra : Option Nat) (j : JSON)
    (hr : resps 0 = AttemptOutcome.http 200 ra (Parse.json j))
    (hv : validate_reddit_response j = false) :
    (make_request cfg resps).result = Except.ok none ∧
    (make_request cfg resps).calls = 1 := by
  constructor <;> simp [make_request, mrLoop, hr, hv]

/-- Witness for C6's amended theorem. -/
theorem c6_witness :
    (make_request cfgC6 respsC6).result = Except.ok none ∧
    (make_request cfgC6 respsC6).calls = 1 :=
  c6_invalid_payload_immediately_returns_none cfgC6 respsC6 none
    invalidShapedPayload rfl rfl

/-- C10: when every attempt fails transiently (so `_make_request` exhausts
its retries and raises `APIError`), every public operation of the community
backend catches the `APIError` and returns `None` — the fatal transport
failure never propagates. -/
theorem c10_public_ops_swallow_api_error
    (cfg : MRConfig) (resps : Nat → AttemptOutcome)
    (h : ∀ a, attemptFailsB (resps a) = true) :
    run_get_user_info (make_request cfg resps).result = none ∧
    run_get_subreddit_posts (make_request cfg resps).result = none ∧
    run_get_subreddit_info (make_request cfg resps).result = none ∧
    run_get_post_details (make_request cfg resps).result = none ∧
    run_get_comments (make_request cfg resps).result = none ∧
    run_search_posts (make_request cfg resps).result = none ∧
    run_get_user_posts (make_request cfg resps).result = none ∧
    run_get_user_comments (make_request cfg resps).result = none := by
  have herr : (make_request cfg resps).result = Except.error () :=
    (mrLoop_all_fail cfg resps h (cfg.maxRetries + 1) 0 0 [] (by omega) (by omega)).1
  rw [herr]
  exact ⟨rfl, rfl, rfl, rfl, rfl, rfl, rfl, rfl⟩

/-- Witness for C10: an always-failing transport. -/
theorem c10_witness :
    run_get_user_info
        (make_request ⟨2, 1, 2, fun _ => 0, none⟩ (fun _ => AttemptOutcome.exn)).result
      = none ∧
    run_get_subreddit_posts
        (make_request ⟨2, 1, 2, fun _ => 0, none⟩ (fun _ => AttemptOutcome.exn)).result
      = none ∧
    run_get_subreddit_info
        (make_request ⟨2, 1, 2, fun _ => 0, none⟩ (fun _ => AttemptOutcome.exn)).result
      = none ∧
    run_get_post_details
        (make_request ⟨2, 1, 2, fun _ => 0, none⟩ (fun _ => AttemptOutcome.exn)).result
      = none ∧
    run_get_comments
        (make_request ⟨2, 1, 2, fun _ => 0, none⟩ (fun _ => AttemptOutcome.exn)).result
      = none ∧
    run_search_posts
        (make_request ⟨2, 1, 2, fun _ => 0, none⟩ (fun _ => AttemptOutcome.exn)).result
      = none ∧
    run_get_user_posts
        (make_request ⟨2, 1, 2, fun _ => 0, none⟩ (fun _ => AttemptOutcome.exn)).result
      = none ∧
    run_get_user_comments
        (make_request ⟨2, 1, 2, fun _ => 0, none⟩ (fun _ => AttemptOutcome.exn)).result
      = none :=
  c10_public_ops_swallow_api_error ⟨2, 1, 2, fun _ => 0, none⟩
    (fun _ => AttemptOutcome.exn) (fun _ => rfl)

/-- C5 counterexample: `search_posts` with requested limit 200 sends 200,
not `min 200 100` — the claim that every listing operation clamps its limit
to 100 is false; the same holds for `get_comments` and the user listings. -/
theorem c5_counterexample :
    search_posts_sent_limit 200 = 200 ∧
    get_comments_sent_limit 200 = 200 ∧
    get_user_posts_sent_limit 200 = 200 ∧
    get_user_comments_sent_limit 200 = 200 ∧
    ¬(search_posts_sent_limit 200 = min 200 100) :=
  ⟨rfl, rfl, rfl, rfl, by decide⟩

/-- C5 amended: only `get_subreddit_posts` clamps the sent `limit` parameter
to `min(L, 100)`; `search_posts`, `get_comments`, `get_user_posts` and
`get_user_comments` send the requested limit unchanged. -/
theorem c5_only_subreddit_posts_clamps_limit (l : Int) :
    get_subreddit_posts_sent_limit l = min l 100 ∧
    get_comments_sent_limit l = l ∧
    search_posts_sent_limit l = l ∧
    get_user_posts_sent_limit l = l ∧
    get_user_comments_sent_limit l = l :=
  ⟨rfl, rfl, rfl, rfl, rfl⟩

/-- C7 counterexample: starting from the default configuration
(`request_delay = 0.5`), `enable_stealth_mode` sets `request_delay = 1.0` and
the jitter range to 0.5-2.0; at the low end of that range
`_enforce_rate_limit` computes an effective delay of `1.0 × 0.5 = 0.5 < 1.0`
seconds, so the claimed effective minimum delay of ≥ 1.0 s does not hold. -/
theorem c7_counterexample :
    (enable_stealth_mode defaultOfficialConfig).min_jitter = 1/2 ∧
    delay_with_jitter (enable_stealth_mode defaultOfficialConfig) (1/2) = 1/2 ∧
    ¬(1 ≤ delay_with_jitter (enable_stealth_mode defaultOfficialConfig) (1/2)) := by
  refine ⟨rfl, ?_, ?_⟩ <;>
    norm_num [delay_with_jitter, enable_stealth_mode, defaultOfficialConfig]

/-- C7 amended: after `enable_stealth_mode`, `request_delay` is ≥ 1.0 s and
`max_requests_per_minute` ≤ 20, but the jitter actually applied in
`_enforce_rate_limit` is drawn from 0.5-2.0, so the effective inter-request
delay is only guaranteed to be ≥ `0.5 × request_delay` (hence ≥ 0.5 s), not
≥ 1.0 s; after `disable_stealth_mode`, random delays are off, the effective
delay is exactly 0.1 s, and `max_requests_per_minute` is 60. -/
theorem c7_stealth_mode_bounds (s : OfficialConfig) (j : ℚ)
    (hj : (enable_stealth_mode s).min_jitter ≤ j) :
    1 ≤ (enable_stealth_mode s).request_delay ∧
    (enable_stealth_mode s).max_requests_per_minute ≤ 20 ∧
    1/2 ≤ delay_with_jitter (enable_stealth_mode s) j ∧
    (∀ j2 : ℚ, delay_with_jitter (disable_stealth_mode s) j2 = 1/10) ∧
    (disable_stealth_mode s).max_requests_per_minute = 60 := by
  have h1 : 1 ≤ max s.request_delay 1 := le_max_right _ _
  have hj2 : (1/2 : ℚ) ≤ j := by
    simpa [enable_stealth_mode] using hj
  refine ⟨h1, min_le_right _ _, ?_, fun j2 => rfl, rfl⟩
  have : (1 : ℚ) * (1/2) ≤ max s.request_delay 1 * j :=
    mul_le_mul h1 hj2 (by norm_num) (le_trans zero_le_one h1)
  simpa [delay_with_jitter, enable_stealth_mode] using this

/-- Witness for C7's amended theorem: the default configuration with the
smallest stealth jitter. -/
theorem c7_witness :
    1 ≤ (enable_stealth_mode defaultOfficialConfig).request_delay ∧
    (enable_stealth_mode defaultOfficialConfig).max_requests_per_minute ≤ 20 ∧
    1/2 ≤ delay_with_jitter (enable_stealth_mode defaultOfficialConfig) (1/2) ∧
    (∀ j2 : ℚ, delay_with_jitter (disable_stealth_mode defaultOfficialConfig) j2 = 1/10) ∧
    (disable_stealth_mode defaultOfficialConfig).max_requests_per_minute = 60 :=
  c7_stealth_mode_bounds defaultOfficialConfig (1/2) (by norm_num [enable_stealth_mode])

/-- C8: with burst protection on and the pruned history already holding
`max_requests_per_minute` timestamps inside the trailing 60-second window,
the burst block of `_enforce_rate_limit` sleeps at least
`60 - (now - oldest)` seconds (the random buffer is ≥ 1) and clears the
history; the full `_enforce_rate_limit` then records only the new request
timestamp, and its first sleep is that burst sleep. -/
theorem c8_burst_window_throttles_and_clears
    (s : OfficialConfig) (times : List ℚ) (lastReq now now2 buf jitter : ℚ)
    (hbp : s.burst_protection = true)
    (hsorted : times.Sorted (· ≤ ·))
    (hk : s.max_requests_per_minute ≤ (prune_request_times times now).length)
    (hne : prune_request_times times now ≠ [])
    (hbuf : 1 ≤ buf) :
    (burst_step s.burst_protection s.max_requests_per_minute times now buf).1 = [] ∧
    (∃ w, (burst_step s.burst_protection s.max_requests_per_minute times now buf).2 = some w ∧
      60 - (now - (prune_request_times times now).headD 0) ≤ w) ∧
    (∀ t ∈ prune_request_times times now, (prune_request_times times now).headD 0 ≤ t) ∧
    (enforce_rate_limit s times lastReq now now2 buf jitter).1 = [now2] ∧
    (∃ w rest, (enforce_rate_limit s times lastReq now now2 buf jitter).2.2 = w :: rest ∧
      60 - (now - (prune_request_times times now).headD 0) ≤ w) := by
  have hb : burst_step true s.max_requests_per_minute times now buf
      = ([], some (60 - (now - (prune_request_times times now).headD 0) + buf)) := by
    simp [burst_step, hk]
  have hw : 60 - (now - (prune_request_times times now).headD 0) ≤
      60 - (now - (prune_request_times times now).headD 0) + buf := by linarith
  have hmin : ∀ t ∈ prune_request_times times now,
      (prune_request_times times now).headD 0 ≤ t := by
    have hps : (prune_request_times times now).Sorted (· ≤ ·) :=
      List.Pairwise.filter _ hsorted
    intro t ht
    rcases hhead : prune_request_times times now with _ | ⟨x, rest⟩
    · exact absurd hhead hne
    · rw [hhead] at ht hps
      rcases List.mem_cons.mp ht with rfl | hmem
      · simp
      · simpa using (List.pairwise_cons.mp hps).1 t hmem
  refine ⟨by rw [hbp, hb], ⟨_, by rw [hbp, hb], hw⟩, hmin, ?_, ?_⟩
  · simp [enforce_rate_limit, hbp, hb]
  · have hs : (enforce_rate_limit s times lastReq now now2 buf jitter).2.2
        = (60 - (now - (prune_request_times times now).headD 0) + buf) ::
          (if now - lastReq < delay_with_jitter s jitter
           then some (delay_with_jitter s jitter - (now - lastReq)) else none).toList := by
      simp [enforce_rate_limit, hbp, hb]
    exact ⟨_, _, hs, hw⟩

/-- Witness for C8: a two-entry in-window history at the window cap. -/
theorem c8_witness :
    (burst_step (⟨true, true, 1, 2, 1/2, 2⟩ : OfficialConfig).burst_protection
        (⟨true, true, 1, 2, 1/2, 2⟩ : OfficialConfig).max_requests_per_minute
        [10, 20] 30 1).1 = [] ∧
    (∃ w, (burst_step (⟨true, true, 1, 2, 1/2, 2⟩ : OfficialConfig).burst_protection
        (⟨true, true, 1, 2, 1/2, 2⟩ : OfficialConfig).max_requests_per_minute
        [10, 20] 30 1).2 = some w ∧
      60 - (30 - (prune_request_times [10, 20] 30).headD 0) ≤ w) ∧
    (∀ t ∈ prune_request_times [10, 20] 30,
      (prune_request_times [10, 20] 30).headD 0 ≤ t) ∧
    (enforce_rate_limit ⟨true, true, 1, 2, 1/2, 2⟩ [10, 20] 20 30 31 1 1).1 = [31] ∧
    (∃ w rest, (enforce_rate_limit ⟨true, true, 1, 2, 1/2, 2⟩ [10, 20] 20 30 31 1 1).2.2
        = w :: rest ∧
      60 - (30 - (prune_request_times [10, 20] 30).headD 0) ≤ w) :=
  c8_burst_window_throttles_and_clears ⟨true, true, 1, 2, 1/2, 2⟩ [10, 20] 20 30 31 1 1
    rfl (by norm_num [List.Sorted]) (by norm_num [prune_request_times, List.filter])
    (by rw [show prune_request_times [10, 20] 30 = [10, 20] from by
          norm_num [prune_request_times, List.filter]]
        exact List.cons_ne_nil _ _)
    le_rfl

/-- Helper: re-applying the post extractor to an extracted record re-cleans
exactly the two text fields and copies everything else. -/
lemma extract_post_reapply (p : JSON) :
    extract_clean_post_data (extract_clean_post_data p) = JSON.obj [
      ("id", pyGetD p "id" (JSON.str "")),
      ("title", JSON.str (clean_text_content (cleanTextJ (pyGetD p "title" (JSON.str ""))))),
      ("author", pyGetD p "author" (JSON.str "")),
      ("subreddit", pyGetD p "subreddit" (JSON.str "")),
      ("score", pyGetD p "score" (JSON.num 0)),
      ("upvote_ratio", pyGetD p "upvote_ratio" (JSON.num 0)),
      ("num_comments", pyGetD p "num_comments" (JSON.num 0)),
      ("created_utc", pyGetD p "created_utc" (JSON.num 0)),
      ("selftext", JSON.str (clean_text_content (cleanTextJ (pyGetD p "selftext" (JSON.str ""))))),
      ("url", pyGetD p "url" (JSON.str "")),
      ("permalink", pyGetD p "permalink" (JSON.str "")),
      ("is_self", pyGetD p "is_self" (JSON.bool false)),
      ("over_18", pyGetD p "over_18" (JSON.bool false)),
      ("spoiler", pyGetD p "spoiler" (JSON.bool false)),
      ("locked", pyGetD p "locked" (JSON.bool false)),
      ("archived", pyGetD p "archived" (JSON.bool false)),
      ("distinguished", pyGetD p "distinguished" JSON.null),
      ("stickied", pyGetD p "stickied" (JSON.bool false))
    ] := rfl

/-- Helper: the post extractor written with its text-field cleaning
explicit. -/
lemma extract_post_expand (p : JSON) :
    extract_clean_post_data p = JSON.obj [
      ("id", pyGetD p "id" (JSON.str "")),
      ("title", JSON.str (cleanTextJ (pyGetD p "title" (JSON.str "")))),
      ("author", pyGetD p "author" (JSON.str "")),
      ("subreddit", pyGetD p "subreddit" (JSON.str "")),
      ("score", pyGetD p "score" (JSON.num 0)),
      ("upvote_ratio", pyGetD p "upvote_ratio" (JSON.num 0)),
      ("num_comments", pyGetD p "num_comments" (JSON.num 0)),
      ("created_utc", pyGetD p "created_utc" (JSON.num 0)),
      ("selftext", JSON.str (cleanTextJ (pyGetD p "selftext" (JSON.str "")))),
      ("url", pyGetD p "url" (JSON.str "")),
      ("permalink", pyGetD p "permalink" (JSON.str "")),
      ("is_self", pyGetD p "is_self" (JSON.bool false)),
      ("over_18", pyGetD p "over_18" (JSON.bool false)),
      ("spoiler", pyGetD p "spoiler" (JSON.bool false)),
      ("locked", pyGetD p "locked" (JSON.bool false)),
      ("archived", pyGetD p "archived" (JSON.bool false)),
      ("distinguished", pyGetD p "distinguished" JSON.null),
      ("stickied", pyGetD p "stickied" (JSON.bool false))
    ] := rfl

/-- Helper: re-applying the comment extractor to an extracted record
re-cleans exactly the body field and copies everything else. -/
lemma extract_comment_reapply (c : JSON) :
    extract_clean_comment_data (extract_clean_comment_data c) = JSON.obj [
      ("id", pyGetD c "id" (JSON.str "")),
      ("author", pyGetD c "author" (JSON.str "")),
      ("body", JSON.str (clean_text_content (cleanTextJ (pyGetD c "body" (JSON.str ""))))),
      ("score", pyGetD c "score" (JSON.num 0)),
      ("created_utc", pyGetD c "created_utc" (JSON.num 0)),
      ("parent_id", pyGetD c "parent_id" (JSON.str "")),
      ("link_id", pyGetD c "link_id" (JSON.str "")),
      ("subreddit", pyGetD c "subreddit" (JSON.str "")),
      ("permalink", pyGetD c "permalink" (JSON.str "")),
      ("distinguished", pyGetD c "distinguished" JSON.null),
      ("stickied", pyGetD c "stickied" (JSON.bool false)),
      ("is_submitter", pyGetD c "is_submitter" (JSON.bool false)),
      ("controversiality", pyGetD c "controversiality" (JSON.num 0)),
      ("depth", pyGetD c "depth" (JSON.num 0))
    ] := rfl

/-- Helper: the comment extractor written with its body cleaning explicit. -/
lemma extract_comment_expand (c : JSON) :
    extract_clean_comment_data c = JSON.obj [
      ("id", pyGetD c "id" (JSON.str "")),
      ("author", pyGetD c "author" (JSON.str "")),
      ("body", JSON.str (cleanTextJ (pyGetD c "body" (JSON.str "")))),
      ("score", pyGetD c "score" (JSON.num 0)),
      ("created_utc", pyGetD c "created_utc" (JSON.num 0)),
      ("parent_id", pyGetD c "parent_id" (JSON.str "")),
      ("link_id", pyGetD c "link_id" (JSON.str "")),
      ("subreddit", pyGetD c "subreddit" (JSON.str "")),
      ("permalink", pyGetD c "permalink" (JSON.str "")),
      ("distinguished", pyGetD c "distinguished" JSON.null),
      ("stickied", pyGetD c "stickied" (JSON.bool false)),
      ("is_submitter", pyGetD c "is_submitter" (JSON.bool false)),
      ("controversiality", pyGetD c "controversiality" (JSON.num 0)),
      ("depth", pyGetD c "depth" (JSON.num 0))
    ] := rfl

/-- C9 counterexample: normalization is not idempotent.  A raw post whose
title is `"&amp;amp;"` extracts to a record with title `"&amp;"`; feeding
that canonical record back into `_extract_clean_post_data` re-runs
`_clean_text_content`, which decodes the entity a second time to `"&"`, so
the round-tripped record differs from the canonical one. -/
theorem c9_counterexample :
    extract_clean_post_data (extract_clean_post_data titleEntityPost)
      ≠ extract_clean_post_data titleEntityPost := by
  intro h
  have e1 : pyGet (extract_clean_post_data (extract_clean_post_data titleEntityPost)) "title"
      = some (JSON.str "&") := rfl
  have e2 : pyGet (extract_clean_post_data titleEntityPost) "title"
      = some (JSON.str "&amp;") := rfl
  rw [h, e2] at e1
  injection e1 with e1
  injection e1 with e1
  exact absurd e1 (by decide)

/-- C9 amended: re-extraction copies every non-text field unchanged and
re-cleans the text fields, so it is the identity exactly on records whose
cleaned text fields (`title`/`selftext` for posts, `body` for comments) are
fixed points of `_clean_text_content`; for text containing double-escaped
HTML entities (or text that strips to a deletion sentinel) the second pass
changes the record. -/
theorem c9_idempotent_on_clean_fixed_points (cd cc : JSON)
    (ht : clean_text_content (cleanTextJ (pyGetD cd "title" (JSON.str "")))
        = cleanTextJ (pyGetD cd "title" (JSON.str "")))
    (hs : clean_text_content (cleanTextJ (pyGetD cd "selftext" (JSON.str "")))
        = cleanTextJ (pyGetD cd "selftext" (JSON.str "")))
    (hb : clean_text_content (cleanTextJ (pyGetD cc "body" (JSON.str "")))
        = cleanTextJ (pyGetD cc "body" (JSON.str ""))) :
    extract_clean_post_data (extract_clean_post_data cd) = extract_clean_post_data cd ∧
    extract_clean_comment_data (extract_clean_comment_data cc) = extract_clean_comment_data cc := by
  constructor
  · rw [extract_post_reapply, ht, hs, ← extract_post_expand]
  · rw [extract_comment_reapply, hb, ← extract_comment_expand]

/-- Witness for C9's amended theorem: empty raw dicts, whose cleaned text
fields are all `""`. -/
theorem c9_witness :
    extract_clean_post_data (extract_clean_post_data (JSON.obj []))
      = extract_clean_post_data (JSON.obj []) ∧
    extract_clean_comment_data (extract_clean_comment_data (JSON.obj []))
      = extract_clean_comment_data (JSON.obj []) :=
  c9_idempotent_on_clean_fixed_points (JSON.obj []) (JSON.obj []) rfl rfl rfl

/-- C3 counterexample: on the authenticated backend, normalizing the exact
four-body example (`"[deleted]"`, `"[removed]"`, `""`, `"hello"`) yields TWO
comments, one of them with an empty body — the empty string is not filtered
there, refuting both the no-empty-body invariant and the
"exactly one comment" example; and on the public-scrape backend a raw body
of `" [deleted] "` survives the filter and is then cleaned to the sentinel
`"[deleted]"`, so the output can contain a sentinel body as well. -/
theorem c3_counterexample :
    (official_get_comments 100 examplePrawComments).map OfficialComment.body
      = ["", "hello"] ∧
    (official_get_comments 100 examplePrawComments).length ≠ 1 ∧
    (community_get_comments_core (some sentinelCommentListing)).map
        (fun r => pyGet r "body")
      = [some (JSON.str "[deleted]")] := by
  refine ⟨by decide, by decide, ?_⟩
  rfl

/-- C3 amended: the public-scrape backend drops exactly the children whose
raw body is missing, `null`, `"[deleted]"`, `"[removed]"` or `""` (every
output record comes from a child whose raw body passed that filter, but
bodies merely normalizing to a sentinel survive), and on the four-body
example it returns exactly the cleaned `"hello"` comment; the authenticated
backend drops only comments without a `body` attribute or with raw body
exactly `"[deleted]"`/`"[removed]"` — empty bodies are kept there. -/
theorem c3_comment_filtering :
    (∀ (limit : Nat) (cs : List PrawComment), ∀ c ∈ official_get_comments limit cs,
      c.body ≠ "[deleted]" ∧ c.body ≠ "[removed]") ∧
    (∀ (d : Option JSON), ∀ r ∈ community_get_comments_core d,
      ∃ cd, comment_body_excluded cd = false ∧ r = extract_clean_comment_data cd) ∧
    community_get_comments_core (some exampleCommentListing)
      = [extract_clean_comment_data helloCommentDict] ∧
    pyGet (extract_clean_comment_data helloCommentDict) "body"
      = some (JSON.str "hello") := by
  refine ⟨?_, ?_, rfl, rfl⟩
  · intro limit cs c hc
    simp only [official_get_comments] at hc
    rw [List.mem_filterMap] at hc
    obtain ⟨p, _hp, he⟩ := hc
    cases hbod : p.body with
    | none =>
      simp only [hbod] at he
      exact Option.noConfusion he
    | some b =>
      simp only [hbod] at he
      split_ifs at he with hcond
      have hrec := Option.some.inj he
      simp only [Bool.or_eq_true, not_or] at hcond
      rw [← hrec]
      exact ⟨by simpa using hcond.1, by simpa using hcond.2⟩
  · intro d r hr
    cases d with
    | none => exact absurd hr (by simp [community_get_comments_core])
    | some j =>
      cases j with
      | arr xs =>
        simp only [community_get_comments_core] at hr
        by_cases ht : pyTruthy (JSON.arr xs) = true
        case neg => rw [if_neg ht] at hr; exact absurd hr (List.not_mem_nil r)
        case pos =>
        rw [if_pos ht] at hr
        by_cases hl : 1 < xs.length
        case neg => rw [if_neg hl] at hr; exact absurd hr (List.not_mem_nil r)
        case pos =>
        rw [if_pos hl] at hr
        cases hdata : pyGet (xs.getD 1 JSON.null) "data" with
        | none => rw [hdata] at hr; exact absurd hr (List.not_mem_nil r)
        | some cdata =>
        rw [hdata] at hr
        have hr3 : r ∈ (match pyGet cdata "children" with
            | some (JSON.arr children) => children.filterMap process_comment_child
            | _ => []) := hr
        cases hch : pyGet cdata "children" with
        | none => rw [hch] at hr3; exact absurd hr3 (List.not_mem_nil r)
        | some ch =>
        rw [hch] at hr3
        cases ch with
        | arr children =>
          have hr2 : r ∈ children.filterMap process_comment_child := hr3
          rw [List.mem_filterMap] at hr2
          obtain ⟨child, _hc, hpc⟩ := hr2
          unfold process_comment_child at hpc
          cases hcd : pyGet child "data" with
          | none =>
            rw [hcd] at hpc
            exact Option.noConfusion hpc
          | some cd =>
            rw [hcd] at hpc
            have hpc2 : (if comment_body_excluded cd then none
                else some (extract_clean_comment_data cd)) = some r := hpc
            split_ifs at hpc2 with hex
            exact ⟨cd, by simpa using hex, (Option.some.inj hpc2).symm⟩
        | null => exact absurd hr3 (List.not_mem_nil r)
        | bool b => exact absurd hr3 (List.not_mem_nil r)
        | num q => exact absurd hr3 (List.not_mem_nil r)
        | str s => exact absurd hr3 (List.not_mem_nil r)
        | obj fs => exact absurd hr3 (List.not_mem_nil r)
      | null => exact absurd hr (by simp [community_get_comments_core])
      | bool b => exact absurd hr (by simp [community_get_comments_core])
      | num q => exact absurd hr (by simp [community_get_comments_core])
      | str s => exact absurd hr (by simp [community_get_comments_core])
      | obj fs => exact absurd hr (by simp [community_get_comments_core])

/-- Witness for C3's amended theorem: the `"hello"` comment on both
backends. -/
theorem c3_witness :
    (helloOfficialComment.body ≠ "[deleted]" ∧
      helloOfficialComment.body ≠ "[removed]") ∧
    (∃ cd, comment_body_excluded cd = false ∧
      extract_clean_comment_data helloCommentDict = extract_clean_comment_data cd) :=
  ⟨c3_comment_filtering.1 100 examplePrawComments helloOfficialComment (by decide),
   c3_comment_filtering.2.1 (some exampleCommentListing)
     (extract_clean_comment_data helloCommentDict)
     (by rw [c3_comment_filtering.2.2.1]; exact List.mem_singleton.mpr rfl)⟩

/-- Helper: when every vendor call raises a PRAW rate-limit error,
`handle_rate_limit` sleeps `base_delay * 2 ^ attempt * jitter` before every
retry and finally raises `RateLimitError`. -/
lemma hrlLoop_const_prawRL (n : Nat) (base : ℚ) (jr jb : Nat → ℚ) :
    ∀ fuel attempt sleeps, attempt + fuel = n + 1 → 1 ≤ fuel →
      hrlLoop (fun _ => VendorOutcome.prawRL) n base jr jb fuel attempt sleeps
        = (HrlOutcome.rateLimitError,
            sleeps ++ (List.range' attempt (fuel - 1)).map (fun a => base * 2 ^ a * jr a))
  | 0, _, _ => fun _ hf => absurd hf (by omega)
  | fuel + 1, attempt, sleeps => by
    intro hinv _
    by_cases he : attempt = n
    · have hf0 : fuel = 0 := by omega
      subst hf0
      simp [hrlLoop, he]
    · have h1 : 1 ≤ fuel := by omega
      have hrec := hrlLoop_const_prawRL n base jr jb fuel (attempt + 1)
        (sleeps ++ [base * 2 ^ attempt * jr attempt]) (by omega) h1
      simp only [hrlLoop, if_neg he]
      rw [hrec]
      obtain ⟨m, rfl⟩ : ∃ m, fuel = m + 1 := ⟨fuel - 1, by omega⟩
      simp [List.range'_succ, List.append_assoc]

/-- Helper: when every vendor call raises a generic rate-limit-looking
exception (suspected bot detection), `handle_rate_limit` sleeps
`base_delay * 3 ^ attempt * jitter` before every retry and finally raises
`RateLimitError`. -/
lemma hrlLoop_const_generic (n : Nat) (base : ℚ) (jr jb : Nat → ℚ) :
    ∀ fuel attempt sleeps, attempt + fuel = n + 1 → 1 ≤ fuel →
      hrlLoop (fun _ => VendorOutcome.generic429) n base jr jb fuel attempt sleeps
        = (HrlOutcome.rateLimitError,
            sleeps ++ (List.range' attempt (fuel - 1)).map (fun a => base * 3 ^ a * jb a))
  | 0, _, _ => fun _ hf => absurd hf (by omega)
  | fuel + 1, attempt, sleeps => by
    intro hinv _
    by_cases he : attempt = n
    · have hf0 : fuel = 0 := by omega
      subst hf0
      simp [hrlLoop, he]
    · have h1 : 1 ≤ fuel := by omega
      have hrec := hrlLoop_const_generic n base jr jb fuel (attempt + 1)
        (sleeps ++ [base * 3 ^ attempt * jb attempt]) (by omega) h1
      simp only [hrlLoop, if_neg he]
      rw [hrec]
      obtain ⟨m, rfl⟩ : ∃ m, fuel = m + 1 := ⟨fuel - 1, by omega⟩
      simp [List.range'_succ, List.append_assoc]

/-- C4 counterexample: when the 429 response carries no `Retry-After`
header, the public-scrape layer sleeps a constant 60 seconds on every
attempt (trace `[request_delay, 60, request_delay, 60, ...]` with
`request_delay = 0` here) — such a constant schedule matches no exponential
schedule `baseDelay × multiplier^attempt × jitter` with multiplier ≥ 2 and
per-attempt jitter anywhere in the generous band `[1/4, 4]` (which contains
both claimed jitter ranges), so the claimed "otherwise exponentially
growing delay" is false. -/
theorem c4_counterexample :
    (make_request cfg429 resps429).sleeps
      = [0, 60, 0, 60, 0, 60, 0, 60, 0, 60, 0, 60, 0, 60] ∧
    ¬ ∃ (base mult : ℚ) (j : Nat → ℚ), 0 < base ∧ 2 ≤ mult ∧
        (∀ a, 1/4 ≤ j a ∧ j a ≤ 4) ∧
        (∀ a, a ≤ 6 →
          (make_request cfg429 resps429).sleeps.get? (2 * a + 1)
            = some (base * mult ^ a * j a)) := by
  have hs : (make_request cfg429 resps429).sleeps
      = [0, 60, 0, 60, 0, 60, 0, 60, 0, 60, 0, 60, 0, 60] := by decide
  refine ⟨hs, ?_⟩
  rintro ⟨base, mult, j, hb, hm, hj, hall⟩
  have h0 := hall 0 (by norm_num)
  have h6 := hall 6 (by norm_num)
  rw [hs] at h0 h6
  rw [show ([0, 60, 0, 60, 0, 60, 0, 60, 0, 60, 0, 60, 0, 60] : List ℚ).get? (2 * 0 + 1)
      = some 60 from rfl] at h0
  rw [show ([0, 60, 0, 60, 0, 60, 0, 60, 0, 60, 0, 60, 0, 60] : List ℚ).get? (2 * 6 + 1)
      = some 60 from rfl] at h6
  have e0 : (60 : ℚ) = base * j 0 := by
    have h := Option.some.inj h0
    simpa using h
  have e6 : (60 : ℚ) = base * mult ^ 6 * j 6 := Option.some.inj h6
  have hj0 : j 0 ≤ 4 := (hj 0).2
  have hj6 : 1/4 ≤ j 6 := (hj 6).1
  have hm6 : (64 : ℚ) ≤ mult ^ 6 := by
    calc (64 : ℚ) = 2 ^ 6 := by norm_num
    _ ≤ mult ^ 6 := pow_le_pow_left₀ (by norm_num) hm 6
  have hb15 : 15 ≤ base := by
    have hmul : base * j 0 ≤ base * 4 := mul_le_mul_of_nonneg_left hj0 hb.le
    linarith
  have hbm : base * 64 ≤ base * mult ^ 6 := mul_le_mul_of_nonneg_left hm6 hb.le
  have hquarter : base * 64 * (1/4) ≤ base * mult ^ 6 * j 6 :=
    mul_le_mul hbm hj6 (by norm_num)
      (le_trans (mul_nonneg hb.le (by norm_num)) hbm)
  rw [← e6] at hquarter
  linarith

/-- C4 amended: on an HTTP 429 the public-scrape layer sleeps the
server-provided `Retry-After` value when present — defaulting to a constant
60 seconds when absent, not to an exponential schedule — and then retries;
the authenticated layer's `handle_rate_limit` never consults `Retry-After`
and sleeps `base_delay × 2^attempt × jitter(0.5-1.5)` for vendor rate-limit
errors, and `base_delay × 3^attempt × jitter(1.0-2.0)` for suspected
bot-detection signals, before each retry. -/
theorem c4_rate_limit_sleep_schedules
    (cfg : MRConfig) (resps : Nat → AttemptOutcome) (ra : Option Nat)
    (p : Parse) (g : JSON)
    (hm : 1 ≤ cfg.maxRetries)
    (h0 : resps 0 = AttemptOutcome.http 429 ra p)
    (h1 : resps 1 = AttemptOutcome.http 200 none (Parse.json g))
    (hv : validate_reddit_response g = true) :
    ((make_request cfg resps).result = Except.ok (some g) ∧
     (make_request cfg resps).calls = 2 ∧
     (make_request cfg resps).sleeps
        = [cfg.requestDelay, ((ra.getD 60 : Nat) : ℚ), cfg.requestDelay]) ∧
    (∀ (n : Nat) (base : ℚ) (jr jb : Nat → ℚ),
      handle_rate_limit (fun _ => VendorOutcome.prawRL) n base jr jb
        = (HrlOutcome.rateLimitError,
            (List.range n).map (fun a => base * 2 ^ a * jr a))) ∧
    (∀ (n : Nat) (base : ℚ) (jr jb : Nat → ℚ),
      handle_rate_limit (fun _ => VendorOutcome.generic429) n base jr jb
        = (HrlOutcome.rateLimitError,
            (List.range n).map (fun a => base * 3 ^ a * jb a))) := by
  refine ⟨?_, ?_, ?_⟩
  · obtain ⟨k, hk⟩ : ∃ k, cfg.maxRetries = k + 1 := ⟨cfg.maxRetries - 1, by omega⟩
    refine ⟨?_, ?_, ?_⟩ <;> simp [make_request, hk, mrLoop, h0, h1, hv]
  · intro n base jr jb
    have := hrlLoop_const_prawRL n base jr jb (n + 1) 0 [] (by omega) (by omega)
    rw [handle_rate_limit, this]
    simp [List.range_eq_range']
  · intro n base jr jb
    have := hrlLoop_const_generic n base jr jb (n + 1) 0 [] (by omega) (by omega)
    rw [handle_rate_limit, this]
    simp [List.range_eq_range']

/-- Witness for C4's amended theorem: one 429 with `Retry-After: 7`, then a
valid 200. -/
theorem c4_witness :
    ((make_request cfgC4w respsC4w).result = Except.ok (some goodListingPayload) ∧
     (make_request cfgC4w respsC4w).calls = 2 ∧
     (make_request cfgC4w respsC4w).sleeps
        = [cfgC4w.requestDelay, (((some 7 : Option Nat).getD 60 : Nat) : ℚ),
           cfgC4w.requestDelay]) ∧
    (∀ (n : Nat) (base : ℚ) (jr jb : Nat → ℚ),
      handle_rate_limit (fun _ => VendorOutcome.prawRL) n base jr jb
        = (HrlOutcome.rateLimitError,
            (List.range n).map (fun a => base * 2 ^ a * jr a))) ∧
    (∀ (n : Nat) (base : ℚ) (jr jb : Nat → ℚ),
      handle_rate_limit (fun _ => VendorOutcome.generic429) n base jr jb
        = (HrlOutcome.rateLimitError,
            (List.range n).map (fun a => base * 3 ^ a * jb a))) :=
  c4_rate_limit_sleep_schedules cfgC4w respsC4w (some 7) (Parse.raw "")
    goodListingPayload (by norm_num [cfgC4w]) rfl rfl rfl
